import Mathlib

/-!
Shallow embedding of the resumable-upload core of the vimeo.js SDK.

Sources embedded here:
* `src/lib/filestreamer.js` (the `FileStreamer.prototype` variant, the one the
  claims cite by line number): the custom resumable streaming strategy.
* `src/lib/vimeo.js`: the callback-style `upload` / `replace` orchestrator.
* the promise-enabled `Vimeo.prototype.upload` / `_performTusUpload`
  implementation contained in `src/test/lib/vimeo_promise_test.js`.

JavaScript builtins the code relies on (`parseInt`, `String.prototype.split`
with a one-character separator, `path.basename`, numeric `>=`, truthiness of
`err && code`) are modelled explicitly below.
-/

namespace VimeoJS

/-- Decimal value of a digit run, as accumulated by a base-10 parse. -/
def digitsVal (ds : List Char) : Nat :=
  ds.foldl (fun a c => a * 10 + (c.toNat - 48)) 0

/-- The leading digit run of a character list; `none` models the NaN result of
JS `parseInt` when no leading digit exists. -/
def parseDigitRun (cs : List Char) : Option Nat :=
  let ds := cs.takeWhile Char.isDigit
  if ds = [] then none else some (digitsVal ds)

/-- Model of JS `parseInt` on a character list: skip leading whitespace, allow
one sign character, then parse the leading digit run; `none` models NaN. -/
def jsParseIntChars (cs0 : List Char) : Option Int :=
  let cs := cs0.dropWhile Char.isWhitespace
  if cs.take 1 = ['-'] then
    (parseDigitRun cs.tail).map (fun n => -(n : Int))
  else if cs.take 1 = ['+'] then
    (parseDigitRun cs.tail).map (fun n => (n : Int))
  else
    (parseDigitRun cs).map (fun n => (n : Int))

/-- Model of JS `String.prototype.split` with a one-character separator. -/
def jsSplitChars (sep : Char) : List Char → List (List Char)
  | [] => [[]]
  | c :: rest =>
    if c = sep then [] :: jsSplitChars sep rest
    else
      match jsSplitChars sep rest with
      | [] => [[c]]
      | h :: t => (c :: h) :: t

/-- JS `headers.range.split('-')[1]` followed by `parseInt`: an out-of-range
index is `undefined`, and `parseInt(undefined)` is NaN, modelled as `none`. -/
def rangeSplitSecond (rangeVal : List Char) : Option Int :=
  match (jsSplitChars '-' rangeVal).get? 1 with
  | none => none
  | some seg => jsParseIntChars seg

/-- `parseInt(headers.range.split('-')[1])` from
`FileStreamer.prototype._getNewStart` (filestreamer.js line 548). -/
def getNewStartParse (rangeVal : String) : Option Int :=
  rangeSplitSecond rangeVal.toList

/-- Model of Node `path.basename`: the last nonempty `/`-separated component
(used by `Vimeo.prototype.replace`, vimeo.js line 519). -/
def jsBasename (s : String) : String :=
  match ((jsSplitChars '/' s.toList).filter (fun l => l ≠ [])).getLast? with
  | some l => String.mk l
  | none => s

/-- Printing of the `status` parameter inside the range-query error message:
a missing (JS `undefined`) status prints as the string undefined. -/
def jsNumToString : Option Nat → String
  | some n => toString n
  | none => "undefined"

/-- JS truthiness of the `code` callback parameter: `undefined` and `0` are
falsy, every other number is truthy. -/
def jsTruthyCode : Option Nat → Bool
  | some n => n ≠ 0
  | none => false

/-- JS `start >= fileSize` where `start` may be NaN (`none`): every comparison
with NaN is false. -/
def jsGe (a : Option Int) (b : Int) : Bool :=
  match a with
  | some x => decide (b ≤ x)
  | none => false

/-- An HTTP response as observed by `_upload_endpoint_request`: status code,
the `Range` response header if present, and the response body text. -/
structure HttpResponse where
  statusCode : Nat
  rangeHeader : Option String
  body : String
deriving DecidableEq

/-- What can happen to one request issued through `_upload_endpoint_request`:
either a response arrives, or the request errors at the transport level. -/
inductive EndpointEvent
  | response (r : HttpResponse)
  | reqError (msg : String)
deriving DecidableEq

/-- The `(err, status, headers)` triple handed to the callback of
`_upload_endpoint_request`; only the `range` header is ever read. -/
structure CallbackArgs where
  err : Option String
  code : Option Nat
  range : Option String
deriving DecidableEq

/-- `FileStreamer.prototype._upload_endpoint_request` (filestreamer.js lines
561-602): a response with status above 399 invokes the callback with an error
wrapping the body, any other response passes through with no error, and a
request-level error invokes the callback with only the error. -/
def uploadEndpointRequest : EndpointEvent → CallbackArgs
  | .response r =>
    if r.statusCode > 399 then
      { err := some ("[" ++ r.body ++ "]"), code := some r.statusCode, range := r.rangeHeader }
    else
      { err := none, code := some r.statusCode, range := r.rangeHeader }
  | .reqError e => { err := some e, code := none, range := none }

/-- Result of the range-check continuation `next` in `_getNewStart`:
`ok` carries the parsed new start offset (`none` for NaN), `err` an error
message, and `crash` models the uncaught TypeError thrown in strict mode when
`headers.range` is `undefined` and `.split` is called on it. -/
inductive RangeResult
  | ok (start : Option Int)
  | err (msg : String)
  | crash
deriving DecidableEq

/-- The response handler inside `FileStreamer.prototype._getNewStart`
(filestreamer.js lines 542-552): pass a transport error through; on status 308
parse the `Range` header upper bound; on any other status build the
invalid-status message. -/
def getNewStartHandler (args : CallbackArgs) : RangeResult :=
  match args.err with
  | some e => .err e
  | none =>
    if args.code = some 308 then
      match args.range with
      | some rangeVal => .ok (getNewStartParse rangeVal)
      | none => .crash
    else
      .err ("Invalid http status returned from range query: [" ++ jsNumToString args.code ++ "]")

/-- The full range-confirmation step: issue the zero-length PUT through
`_upload_endpoint_request` and feed the callback arguments to the
`_getNewStart` handler. -/
def getNewStart (ev : EndpointEvent) : RangeResult :=
  getNewStartHandler (uploadEndpointRequest ev)

/-- What `FileStreamer.prototype._streamChunk` does with the `_putFile`
callback arguments (filestreamer.js lines 460-471): close the file and report
the error when both `err` and `code` are truthy, otherwise go to `_ready`. -/
inductive StreamAction
  | closeAndError (msg : String)
  | ready
deriving DecidableEq

/-- The callback body of `FileStreamer.prototype._streamChunk`: the test is
the JS truthiness of `err && code`. -/
def streamChunkStep (args : CallbackArgs) : StreamAction :=
  match args.err with
  | some e => if jsTruthyCode args.code then .closeAndError e else .ready
  | none => .ready

/-- The decision `FileStreamer.prototype._ready` takes from a range-check
result (filestreamer.js lines 379-399): an error closes the file and reports
it, `start >= file_size` closes the file and completes, otherwise streaming
resumes at `start`. -/
inductive ReadyAction
  | closeAndError (msg : String)
  | closeAndComplete
  | stream (start : Option Int)
  | crash
deriving DecidableEq

/-- `FileStreamer.prototype._ready`, as a function of the range result. -/
def readyStep (fileSize : Int) (r : RangeResult) : ReadyAction :=
  match r with
  | .err e => .closeAndError e
  | .crash => .crash
  | .ok start => if jsGe start fileSize then .closeAndComplete else .stream start

/-- The data PUT built by `FileStreamer.prototype._putFile` (filestreamer.js
lines 479-512): a read stream opened at `start` and the three headers. -/
structure PutRequest where
  readStreamStart : Int
  contentLength : Int
  contentType : String
  contentRange : String
deriving DecidableEq

/-- `FileStreamer.prototype._putFile`: `fs.createReadStream(path, {start})`
and `Content-Range: bytes <start>-<fileSize>/<fileSize>`. -/
def putFileRequest (start : Int) (fileSize : Int) : PutRequest :=
  { readStreamStart := start
    contentLength := fileSize
    contentType := "video/mp4"
    contentRange := "bytes " ++ toString start ++ "-" ++ toString fileSize ++ "/" ++ toString fileSize }

/-- What can happen to the data PUT issued by `_putFile`: a server response or
a request-level error (both reported through `_upload_endpoint_request`), or an
error event of the read stream, which invokes the callback with only the
error. -/
inductive PutEvent
  | response (r : HttpResponse)
  | reqError (msg : String)
  | fileError (msg : String)
deriving DecidableEq

/-- The callback arguments `_putFile` delivers to `_streamChunk` for each
possible event of the data PUT. -/
def putCallbackArgs : PutEvent → CallbackArgs
  | .response r => uploadEndpointRequest (.response r)
  | .reqError e => uploadEndpointRequest (.reqError e)
  | .fileError e => { err := some e, code := none, range := none }

/-- How one upload invocation of the streaming strategy ended: by the
completion callback, by the error callback, or by an uncaught TypeError
(strict-mode `this` being `undefined` inside a plain callback, or `.split`
called on a missing `Range` header). -/
inductive Halt
  | complete
  | error
  | crashTypeError
deriving DecidableEq

/-- Observable outcome of one upload invocation: how many times the
user-facing completion and error callbacks fired, how many uncaught
TypeErrors were raised, and how the invocation halted (`none` when the
scripted outcomes ran out while streaming was still in progress). -/
structure RunResult where
  completes : Nat
  errors : Nat
  crashes : Nat
  halt : Option Halt
deriving DecidableEq

/-- Result `fs.close` reports to the callback registered by `_closeFile`. -/
inductive CloseOutcome
  | ok
  | fail
deriving DecidableEq

/-- `FileStreamer.prototype._closeFile` (filestreamer.js lines 518-528): the
close callback is a plain function, so under the strict mode of the module
`this` is `undefined` and a close error raises an uncaught TypeError at
`this._error(err)` instead of reaching the error channel. -/
def closeCrashes : CloseOutcome → Nat
  | .ok => 0
  | .fail => 1

/-- One confirm-then-send cycle under the restriction that the data PUT
delivers its callback exactly once: one data-PUT event and, unless the PUT
short-circuits, one range-check event. `_putFile` registers the same callback
on the read-stream error event, the request error event and the response
path, so a single PUT can in fact deliver its callback more than once; that
general behaviour is modelled by `Flow` below, of which this is the
single-delivery special case. -/
abbrev Cycle := PutEvent × EndpointEvent

/-- The `_streamChunk` / `_ready` loop of the streaming strategy, driven by a
finite script of network outcomes in which each data PUT delivers its
callback exactly once. Each cycle applies `_streamChunk` to the PUT event;
unless that short-circuits, `_ready` consumes the range-check event and
either errors, completes, or re-enters streaming at the confirmed offset. -/
def runLoop (fileSize : Int) (closeOut : CloseOutcome) : Option Int → List Cycle → RunResult
  | _, [] => ⟨0, 0, 0, none⟩
  | _, (p, rge) :: rest =>
    match streamChunkStep (putCallbackArgs p) with
    | .closeAndError _ => ⟨0, 1, closeCrashes closeOut, some .error⟩
    | .ready =>
      match readyStep fileSize (getNewStart rge) with
      | .closeAndError _ => ⟨0, 1, closeCrashes closeOut, some .error⟩
      | .crash => ⟨0, 0, 1, some .crashTypeError⟩
      | .closeAndComplete => ⟨1, 0, closeCrashes closeOut, some .complete⟩
      | .stream s => runLoop fileSize closeOut s rest

/-- Result of `fs.stat` at the start of `FileStreamer.prototype.upload`. -/
inductive StatOutcome
  | ok (size : Int)
  | fail (msg : String)
deriving DecidableEq

/-- Result of `fs.open` in `FileStreamer.prototype.upload`. -/
inductive OpenOutcome
  | ok (fd : Nat)
  | fail (msg : String)
deriving DecidableEq

/-- `FileStreamer.prototype.upload` (filestreamer.js lines 434-453): a stat
failure reports through `_error`; an open failure runs `this._error(openErr)`
inside a plain strict-mode callback where `this` is `undefined`, raising an
uncaught TypeError; otherwise streaming starts at offset 0. -/
def uploadRun (st : StatOutcome) (op : OpenOutcome) (closeOut : CloseOutcome)
    (script : List Cycle) : RunResult :=
  match st with
  | .fail _ => ⟨0, 1, 0, some .error⟩
  | .ok size =>
    match op with
    | .fail _ => ⟨0, 0, 1, some .crashTypeError⟩
    | .ok _ => runLoop size closeOut (some 0) script

/-- The terminal callbacks fired during one upload invocation, without the
single-delivery restriction. -/
structure CallbackCounts where
  completes : Nat
  errors : Nat
deriving DecidableEq

/-- Pointwise sum of callback counts. -/
def addCounts (a b : CallbackCounts) : CallbackCounts :=
  ⟨a.completes + b.completes, a.errors + b.errors⟩

/-- The general shape of the network outcomes one upload invocation can see.
`_putFile` registers the same callback on the read-stream error event, on the
request error event and on the response path of `_upload_endpoint_request`,
with no once-guard, so one data PUT can deliver its callback several times
and each delivery advances the state machine independently.
`inv p rge next rest` is one delivery of the current data PUT with put event
`p`; when the machine proceeds to `_ready`, `rge` is the outcome of the
range check that delivery issues; when it resumes streaming, `next` describes
the data PUT it starts; `rest` holds the further deliveries of the *current*
PUT (`done` when no more arrive). -/
inductive Flow where
  | done : Flow
  | inv (p : PutEvent) (rge : EndpointEvent) (next : Flow) (rest : Flow) : Flow
deriving DecidableEq

/-- Terminal callbacks fired over a `Flow`: every delivery is processed by
the `_streamChunk` callback body exactly as in the source (short-circuit on
`err && code`, otherwise `_ready` with the range result); `_closeFile` is
idempotent through the `_fd` null guard, and a crash delivers no callback. -/
def flowCounts (fileSize : Int) : Flow → CallbackCounts
  | .done => ⟨0, 0⟩
  | .inv p rge next rest =>
    addCounts
      (match streamChunkStep (putCallbackArgs p) with
       | .closeAndError _ => ⟨0, 1⟩
       | .ready =>
         match readyStep fileSize (getNewStart rge) with
         | .closeAndError _ => ⟨0, 1⟩
         | .crash => ⟨0, 0⟩
         | .closeAndComplete => ⟨1, 0⟩
         | .stream _ => flowCounts fileSize next)
      (flowCounts fileSize rest)

/-- A single-delivery script as a `Flow`: every data PUT delivers its
callback exactly once. -/
def flowOfCycles : List Cycle → Flow
  | [] => .done
  | (p, rge) :: rest => .inv p rge (flowOfCycles rest) .done

/-- A double delivery of one data PUT: the read stream errors (callback with
an error and no status code, so the machine proceeds to `_ready`, whose range
check confirms the whole 10-byte file and completes), and the request of the
same PUT still receives a 200 response (second delivery: again no
short-circuit, and its range check answers 200, which errors). -/
def doubleDeliveryFlow : Flow :=
  .inv (.fileError "EBADF") (.response ⟨308, some "bytes=0-10", ""⟩) .done
    (.inv (.response ⟨200, none, ""⟩) (.response ⟨200, none, ""⟩) .done .done)

/-- The `upload` sub-object of the session-negotiation parameters: the two
fields the orchestrator forces, plus any other caller-supplied sub-fields. -/
structure UploadFields where
  approach : Option String
  size : Option Int
  extra : List (String × String)
deriving DecidableEq

/-- The caller-supplied `params` object of `upload` / `replace`: the `upload`
sub-object, the `file_name` field written by `replace`, and all other
caller-supplied fields. -/
structure Params where
  upload : Option UploadFields
  file_name : Option String
  extra : List (String × String)
deriving DecidableEq

/-- Lines 446-455 of vimeo.js (and the identical block in `replace`): when
`params.upload` is undefined a fresh object with `approach` and `size` is
assigned; otherwise exactly those two fields of the existing sub-object are
overwritten. -/
def forceUploadFields (fileSize : Option Int) (p : Params) : Params :=
  match p.upload with
  | none => { p with upload := some { approach := some "tus", size := fileSize, extra := [] } }
  | some u => { p with upload := some { u with approach := some "tus", size := fileSize } }

/-- The session-negotiation request: path, method and the query object. -/
structure NegotiationRequest where
  path : String
  method : String
  query : Params
deriving DecidableEq

/-- The `options` object built by `Vimeo.prototype.upload`
(vimeo.js lines 457-461). -/
def uploadNegotiationRequest (fileSize : Option Int) (p : Params) : NegotiationRequest :=
  { path := "/me/videos?fields=uri,name,upload"
    method := "POST"
    query := forceUploadFields fileSize p }

/-- The `options` object built by `Vimeo.prototype.replace`
(vimeo.js lines 536-540); the `file_name` field is written into `p` by the
caller of this definition, matching the source order. -/
def replaceNegotiationRequest (videoUri : String) (fileSize : Option Int) (p : Params) : NegotiationRequest :=
  { path := videoUri ++ "/versions?fields=upload"
    method := "POST"
    query := forceUploadFields fileSize p }

/-- The `file` argument of `upload` / `replace`: a path string, a file-like
object (whose `size` and `name` properties may be undefined), some other
primitive (reading `.size` on it yields undefined), or null / undefined
(reading `.size` throws a TypeError). -/
inductive FileArg
  | path (s : String)
  | obj (size : Option Int) (name : Option String)
  | otherPrim
  | nullish
deriving DecidableEq

/-- How the entry of callback-style `upload` / `replace` leaves the caller:
the error callback fires with a message, the negotiation request is issued,
or a TypeError escapes synchronously. -/
inductive UploadEntryResult
  | errorCb (msg : String)
  | negotiate (req : NegotiationRequest)
  | thrownTypeError
deriving DecidableEq

/-- `Vimeo.prototype.upload` up to issuing the session-negotiation request
(vimeo.js lines 436-461). `statSize` is the result of `fs.statSync`, `none`
meaning it threw. -/
def uploadEntry (file : FileArg) (statSize : Option Int) (p : Params) : UploadEntryResult :=
  match file with
  | .path _ =>
    match statSize with
    | none => .errorCb "Unable to locate file to upload."
    | some sz => .negotiate (uploadNegotiationRequest (some sz) p)
  | .obj sz _ => .negotiate (uploadNegotiationRequest sz p)
  | .otherPrim => .negotiate (uploadNegotiationRequest none p)
  | .nullish => .thrownTypeError

/-- `Vimeo.prototype.replace` up to issuing the session-negotiation request
(vimeo.js lines 512-540): for a path the basename is written to
`params.file_name`, for an object its `name` property is. -/
def replaceEntry (file : FileArg) (statSize : Option Int) (videoUri : String) (p : Params) : UploadEntryResult :=
  match file with
  | .path s =>
    match statSize with
    | none => .errorCb "Unable to locate file to upload."
    | some sz =>
      .negotiate (replaceNegotiationRequest videoUri (some sz) { p with file_name := some (jsBasename s) })
  | .obj sz nm => .negotiate (replaceNegotiationRequest videoUri sz { p with file_name := nm })
  | .otherPrim => .negotiate (replaceNegotiationRequest videoUri none { p with file_name := none })
  | .nullish => .thrownTypeError

/-- Whether the entry issued the session-negotiation request. -/
def issuesNegotiation : UploadEntryResult → Bool
  | .negotiate _ => true
  | _ => false

/-- Result of the session-negotiation API call as the promise-enabled
implementation sees it: the response body carries `uri` and
`upload.upload_link`, or the request rejected with a (stringified) error. -/
inductive NegotiationOutcome
  | ok (uri : String) (uploadLink : String)
  | err (msg : String)
deriving DecidableEq

/-- Terminal outcome of the tus transfer started by `_performTusUpload`:
the `onSuccess` or the `onError` sink of the tus client fires. -/
inductive TransferOutcome
  | success
  | failure (msg : String)
deriving DecidableEq

/-- Settlement of the promise returned by the promise-enabled
`Vimeo.prototype.upload` (vimeo_promise_test.js lines 1673-1763). -/
inductive PromiseOutcome
  | resolved (value : String)
  | rejectedStatError
  | rejectedInvalidFile (msg : String)
  | rejectedNegotiation (msg : String)
  | rejectedTransfer (msg : String)
deriving DecidableEq

/-- The promise branch of the promise-enabled `Vimeo.prototype.upload`: a
non-string `file` rejects with the invalid-file error; a `statSync` throw
rejects with the thrown exception; a negotiation rejection is wrapped; the
tus `onSuccess` sink resolves with `attempt.uri` and `onError` rejects with
the transfer error. -/
def uploadPromiseRun (file : FileArg) (statSize : Option Int)
    (neg : NegotiationOutcome) (transfer : TransferOutcome) : PromiseOutcome :=
  match file with
  | .path _ =>
    match statSize with
    | none => .rejectedStatError
    | some _ =>
      match neg with
      | .err m => .rejectedNegotiation ("Unable to initiate an upload. [" ++ m ++ "]")
      | .ok uri _ =>
        match transfer with
        | .success => .resolved uri
        | .failure m => .rejectedTransfer m
  | _ => .rejectedInvalidFile "Please pass in a valid file path."

/-- The promise branch of the promise-enabled `Vimeo.prototype.replace`
(vimeo_promise_test.js lines 1788-1887): before the transfer starts the code
sets `attempt.body.uri = videoUri`, so `onSuccess` resolves with the video
URI being replaced. -/
def replacePromiseRun (file : FileArg) (videoUri : String) (statSize : Option Int)
    (neg : NegotiationOutcome) (transfer : TransferOutcome) : PromiseOutcome :=
  match file with
  | .path _ =>
    match statSize with
    | none => .rejectedStatError
    | some _ =>
      match neg with
      | .err m => .rejectedNegotiation ("Unable to initiate an upload. [" ++ m ++ "]")
      | .ok _ _ =>
        match transfer with
        | .success => .resolved videoUri
        | .failure m => .rejectedTransfer m
  | _ => .rejectedInvalidFile "Please pass in a valid file path."

/-- Terminal delivered through the callback channel of the promise-enabled
implementation when callbacks were supplied. -/
inductive CallbackTerminal
  | complete (uri : String)
  | errorCb (msg : String)
deriving DecidableEq

/-- The callback branch of the promise-enabled `Vimeo.prototype.upload`:
same flow as the promise branch but delivered through the callbacks. -/
def uploadCallbackRun (file : FileArg) (statSize : Option Int)
    (neg : NegotiationOutcome) (transfer : TransferOutcome) : CallbackTerminal :=
  match file with
  | .path _ =>
    match statSize with
    | none => .errorCb "Unable to locate file to upload."
    | some _ =>
      match neg with
      | .err m => .errorCb ("Unable to initiate an upload. [" ++ m ++ "]")
      | .ok uri _ =>
        match transfer with
        | .success => .complete uri
        | .failure m => .errorCb m
  | _ => .errorCb "Please pass in a valid file path."

/-- What a call to the promise-enabled `upload` returns to the caller. -/
inductive UploadReturn
  | promise (o : PromiseOutcome)
  | callbackMode (t : CallbackTerminal)
deriving DecidableEq

/-- The dispatch at the top of the promise-enabled `Vimeo.prototype.upload`
(line 1690): `isPromise` is true exactly when, after argument shifting, both
the progress and the error callback arguments are absent. -/
def uploadDispatch (hasProgressCb hasErrorCb : Bool) (file : FileArg) (statSize : Option Int)
    (neg : NegotiationOutcome) (transfer : TransferOutcome) : UploadReturn :=
  if !hasProgressCb && !hasErrorCb then
    .promise (uploadPromiseRun file statSize neg transfer)
  else
    .callbackMode (uploadCallbackRun file statSize neg transfer)

/-- A heap of `params` objects indexed by reference, used to state that
`upload` / `replace` mutate the caller-supplied object in place. -/
def Heap : Type := Nat → Params

/-- Field assignment on the object a reference points to. -/
def writeHeap (h : Heap) (r : Nat) (p : Params) : Heap :=
  fun r2 => if r2 = r then p else h r2

/-- The in-place mutation `upload` performs on the caller-supplied `params`
object (vimeo.js lines 446-455): the object at reference `r` itself is
updated, no copy is made. -/
def uploadPrepHeap (fileSize : Option Int) (h : Heap) (r : Nat) : Heap :=
  writeHeap h r (forceUploadFields fileSize (h r))

/-- The in-place mutations `replace` performs on the caller-supplied `params`
object (vimeo.js lines 512-534): first `params.file_name` is assigned, then
the upload fields are forced, all on the object at reference `r`. -/
def replacePrepHeap (fileName : Option String) (fileSize : Option Int) (h : Heap) (r : Nat) : Heap :=
  let h1 := writeHeap h r { h r with file_name := fileName }
  writeHeap h1 r (forceUploadFields fileSize (h1 r))

/-! Helper lemmas about the JS string primitives. -/

lemma jsSplitChars_ne_nil (sep : Char) (l : List Char) : jsSplitChars sep l ≠ [] := by
  induction l with
  | nil => simp [jsSplitChars]
  | cons c t ih =>
    rw [jsSplitChars]
    split
    · simp
    · split
      · simp
      · simp

lemma jsSplitChars_no_sep (sep : Char) (l : List Char) (h : sep ∉ l) :
    jsSplitChars sep l = [l] := by
  induction l with
  | nil => rfl
  | cons c t ih =>
    have hc : ¬ c = sep := fun e => h (by simp [e])
    have ht : sep ∉ t := fun m => h (List.mem_cons_of_mem _ m)
    rw [jsSplitChars, if_neg hc, ih ht]

lemma jsSplitChars_append (sep : Char) (l₁ l₂ : List Char) (h : sep ∉ l₁) :
    jsSplitChars sep (l₁ ++ sep :: l₂) = l₁ :: jsSplitChars sep l₂ := by
  induction l₁ with
  | nil => rw [List.nil_append, jsSplitChars, if_pos rfl]
  | cons c t ih =>
    have hc : ¬ c = sep := fun e => h (by simp [e])
    have ht : sep ∉ t := fun m => h (List.mem_cons_of_mem _ m)
    rw [List.cons_append, jsSplitChars, if_neg hc, ih ht]

lemma not_whitespace_of_isDigit (c : Char) (h : c.isDigit = true) :
    c.isWhitespace = false := by
  rcases hw : c.isWhitespace with _ | _
  · rfl
  · exfalso
    have hw2 := hw
    simp only [Char.isWhitespace, Bool.or_eq_true, decide_eq_true_eq] at hw2
    rcases hw2 with ((h1 | h1) | h1) | h1 <;> (subst h1; exact absurd h (by decide))

lemma isDigit_ne_dash (c : Char) (h : c.isDigit = true) : c ≠ '-' := by
  intro e
  subst e
  exact absurd h (by decide)

lemma isDigit_ne_plus (c : Char) (h : c.isDigit = true) : c ≠ '+' := by
  intro e
  subst e
  exact absurd h (by decide)

lemma takeWhile_isDigit_self (l : List Char) (h : ∀ c ∈ l, c.isDigit = true) :
    l.takeWhile Char.isDigit = l := by
  induction l with
  | nil => rfl
  | cons c t ih =>
    have hc := h c (by simp)
    simp [List.takeWhile_cons, hc, ih (fun d hd => h d (by simp [hd]))]

lemma jsParseIntChars_digits (ds : List Char) (h1 : ds ≠ [])
    (h2 : ∀ c ∈ ds, c.isDigit = true) :
    jsParseIntChars ds = some ((digitsVal ds : Int)) := by
  obtain ⟨c, t, rfl⟩ := List.exists_cons_of_ne_nil h1
  have hc : c.isDigit = true := h2 c (by simp)
  have hw : c.isWhitespace = false := not_whitespace_of_isDigit c hc
  have hdash : ¬ ((c :: t).take 1 = ['-']) := by
    simp [List.take, isDigit_ne_dash c hc]
  have hplus : ¬ ((c :: t).take 1 = ['+']) := by
    simp [List.take, isDigit_ne_plus c hc]
  rw [jsParseIntChars]
  simp only [List.dropWhile_cons, hw, Bool.false_eq_true, if_false, hdash, hplus,
    if_neg, ite_false]
  rw [parseDigitRun]
  simp only [takeWhile_isDigit_self (c :: t) h2]
  simp

lemma getNewStartParse_eq (pre ds : List Char) (hpre : '-' ∉ pre) (h1 : ds ≠ [])
    (h2 : ∀ c ∈ ds, c.isDigit = true) :
    getNewStartParse (String.mk (pre ++ '-' :: ds)) = some ((digitsVal ds : Int)) := by
  have hds : '-' ∉ ds := fun m => absurd (h2 '-' m) (by decide)
  have hlist : (String.mk (pre ++ '-' :: ds)).toList = pre ++ '-' :: ds := rfl
  rw [getNewStartParse, hlist, rangeSplitSecond,
    jsSplitChars_append '-' pre ds hpre, jsSplitChars_no_sep '-' ds hds]
  simp only [List.get?]
  exact jsParseIntChars_digits ds h1 h2

/-! Theorems about the claims. -/

/-- Claim C1: whenever a range confirmation reports a confirmed offset `k`
with `0 < k < totalSize`, `_ready` re-enters streaming at exactly `k`: the
next data PUT opens its read stream at byte `k` and its Content-Range header
begins at `k` — never at byte 0 and never past `k`. -/
theorem resumeStreamsFromConfirmedOffset (k size : Int) (_h0 : 0 < k) (hs : k < size) :
    readyStep size (.ok (some k)) = .stream (some k)
    ∧ (putFileRequest k size).readStreamStart = k
    ∧ (putFileRequest k size).contentRange =
        "bytes " ++ toString k ++ "-" ++ toString size ++ "/" ++ toString size := by
  have hge : jsGe (some k) size = false := by
    simp only [jsGe, decide_eq_false_iff_not]
    omega
  refine ⟨?_, rfl, rfl⟩
  simp [readyStep, hge]

/-- Witness for C1 at the concrete confirmed offset 523 of a 1000-byte file. -/
theorem resumeStreamsFromConfirmedOffset_witness :
    readyStep 1000 (.ok (some 523)) = .stream (some 523)
    ∧ (putFileRequest 523 1000).readStreamStart = 523
    ∧ (putFileRequest 523 1000).contentRange = "bytes 523-1000/1000" := by
  have h := resumeStreamsFromConfirmedOffset 523 1000 (by decide) (by decide)
  exact ⟨h.1, h.2.1, h.2.2.trans (by decide)⟩

/-- Claim C2 (amended): `_ready` completes exactly when the confirmed offset
is at least the total size (the code tests with `>=`, not equality); a
confirmed offset of `totalSize - 1` never completes; and under the invariant
`confirmed <= totalSize`, equality with the total size is the sole completion
condition. -/
theorem completionBoundaryAmended (size start : Int) :
    (readyStep size (.ok (some start)) = .closeAndComplete ↔ size ≤ start)
    ∧ readyStep size (.ok (some (size - 1))) ≠ .closeAndComplete
    ∧ (start ≤ size → (readyStep size (.ok (some start)) = .closeAndComplete ↔ start = size)) := by
  have hgen : ∀ x : Int, (readyStep size (.ok (some x)) = .closeAndComplete ↔ size ≤ x) := by
    intro x
    by_cases h : size ≤ x
    · simp [readyStep, jsGe, h]
    · simp [readyStep, jsGe, h]
  refine ⟨hgen start, ?_, ?_⟩
  · rw [Ne, hgen (size - 1)]
    omega
  · intro hle
    rw [hgen start]
    omega

/-- Witness for C2 at a 10-byte file: offset 9 does not complete, offset 10
completes. -/
theorem completionBoundaryAmended_witness :
    readyStep 10 (.ok (some (10 - 1))) ≠ .closeAndComplete
    ∧ (readyStep 10 (.ok (some 10)) = .closeAndComplete ↔ (10 : Int) = 10) := by
  have h := completionBoundaryAmended 10 10
  exact ⟨h.2.1, h.2.2 (by decide)⟩

/-- Counterexample to C2 as stated: a confirmed offset of 2 on a 1-byte file
triggers completion even though it differs from the total size, so offsets
other than `totalSize` can trigger completion. -/
theorem completionAboveTotalSizeCounterexample :
    readyStep 1 (.ok (some 2)) = .closeAndComplete ∧ (2 : Int) ≠ 1 := by decide

/-- Claim C4 (amended): a range-check response with status 308 and a `Range`
header of the form `<prefix>-<digits>` (with no other dash) yields the decimal
value of the digits as the new start offset; a response status below 400 other
than 308 yields the invalid-status error naming that status; a status above
399 is instead converted by the request layer into an error wrapping the
response body, which the range step passes through unchanged. -/
theorem rangeCheckParsingAmended :
    (∀ (pre ds : List Char) (body : String), '-' ∉ pre → ds ≠ [] →
        (∀ c ∈ ds, c.isDigit = true) →
        getNewStart (.response ⟨308, some (String.mk (pre ++ '-' :: ds)), body⟩) =
          .ok (some ((digitsVal ds : Int))))
    ∧ (∀ (status : Nat) (rng : Option String) (body : String), status ≤ 399 → status ≠ 308 →
        getNewStart (.response ⟨status, rng, body⟩) =
          .err ("Invalid http status returned from range query: [" ++ toString status ++ "]")) := by
  constructor
  · intro pre ds body hpre h1 h2
    have h399 : ¬ ((308 : Nat) > 399) := by decide
    rw [getNewStart, uploadEndpointRequest, if_neg h399]
    simp only [getNewStartHandler, reduceIte]
    rw [getNewStartParse_eq pre ds hpre h1 h2]
  · intro status rng body hle hne
    have h399 : ¬ (status > 399) := by omega
    have h308 : ¬ ((some status : Option Nat) = some 308) := by
      simp [hne]
    rw [getNewStart, uploadEndpointRequest, if_neg h399, getNewStartHandler]
    simp only [if_neg h308]
    rfl

/-- Witness for C4: the header `bytes=0-523` with status 308 yields 523, and
status 200 yields the invalid-status error naming 200. -/
theorem rangeCheckParsingAmended_witness :
    getNewStart (.response ⟨308,
        some (String.mk (['b', 'y', 't', 'e', 's', '=', '0'] ++ '-' :: ['5', '2', '3'])), ""⟩) =
      .ok (some ((digitsVal ['5', '2', '3'] : Int)))
    ∧ getNewStart (.response ⟨200, some "bytes=0-523", ""⟩) =
      .err ("Invalid http status returned from range query: [" ++ toString 200 ++ "]") := by
  exact ⟨rangeCheckParsingAmended.1 ['b', 'y', 't', 'e', 's', '=', '0'] ['5', '2', '3'] ""
      (by decide) (by decide) (by decide),
    rangeCheckParsingAmended.2 200 (some "bytes=0-523") "" (by decide) (by decide)⟩

/-- Counterexample to C4 as stated: a range-check response with status 400 is
an off-308 status, yet the error produced wraps the response body instead of
carrying the invalid-status message. -/
theorem rangeCheckStatus400Counterexample :
    getNewStart (.response ⟨400, some "bytes=0-523", "oops"⟩) = .err "[oops]"
    ∧ RangeResult.err "[oops]" ≠
        RangeResult.err "Invalid http status returned from range query: [400]" := by decide

/-- Claim C5 (amended): a data-PUT callback carrying both an error and a
(nonzero) response status code is terminal — the file is closed and the error
reported without a confirmation step — and every response with status above
399 takes that path with the body-wrapping error; but a transport-level PUT
error with no status code (request error or read-stream error) is not
terminal: the strategy proceeds to the range-confirmation step. -/
theorem putErrorHandlingAmended :
    (∀ (e : String) (c : Nat) (r : Option String), 0 < c →
        streamChunkStep { err := some e, code := some c, range := r } = .closeAndError e)
    ∧ (∀ (resp : HttpResponse), 399 < resp.statusCode →
        streamChunkStep (putCallbackArgs (.response resp)) =
          .closeAndError ("[" ++ resp.body ++ "]"))
    ∧ (∀ (e : String), streamChunkStep (putCallbackArgs (.reqError e)) = .ready)
    ∧ (∀ (e : String), streamChunkStep (putCallbackArgs (.fileError e)) = .ready) := by
  refine ⟨?_, ?_, fun e => rfl, fun e => rfl⟩
  · intro e c r hc
    have ht : jsTruthyCode (some c) = true := by
      simp only [jsTruthyCode, decide_eq_true_eq]
      omega
    simp [streamChunkStep, ht]
  · intro resp h
    have ht : jsTruthyCode (some resp.statusCode) = true := by
      simp only [jsTruthyCode, decide_eq_true_eq]
      omega
    simp [putCallbackArgs, uploadEndpointRequest, if_pos h, streamChunkStep, ht]

/-- Witness for C5: an error with status 500 is terminal, a 404 response is
terminal with the wrapped body, and a plain request error is not terminal. -/
theorem putErrorHandlingAmended_witness :
    streamChunkStep { err := some "boom", code := some 500, range := none } = .closeAndError "boom"
    ∧ streamChunkStep (putCallbackArgs (.response ⟨404, none, "nf"⟩)) = .closeAndError "[nf]"
    ∧ streamChunkStep (putCallbackArgs (.reqError "ECONNRESET")) = .ready := by
  exact ⟨putErrorHandlingAmended.1 "boom" 500 none (by decide),
    putErrorHandlingAmended.2.1 ⟨404, none, "nf"⟩ (by decide),
    putErrorHandlingAmended.2.2.1 "ECONNRESET"⟩

/-- Counterexample to C5 as stated: a transport-level error during the data
PUT (a request error with no status code) does not close the file and report
the error — the strategy proceeds to the range-confirmation step. -/
theorem transportErrorNotTerminalCounterexample :
    streamChunkStep (putCallbackArgs (.reqError "socket hang up")) = .ready
    ∧ StreamAction.ready ≠ .closeAndError "socket hang up" := by decide

lemma runLoop_counts (fileSize : Int) (closeOut : CloseOutcome) (script : List Cycle) :
    ∀ start : Option Int,
      (runLoop fileSize closeOut start script).completes =
        (if (runLoop fileSize closeOut start script).halt = some Halt.complete then 1 else 0)
      ∧ (runLoop fileSize closeOut start script).errors =
        (if (runLoop fileSize closeOut start script).halt = some Halt.error then 1 else 0) := by
  induction script with
  | nil =>
    intro start
    simp [runLoop]
  | cons cyc rest ih =>
    intro start
    obtain ⟨p, rge⟩ := cyc
    rw [runLoop]
    cases hstep : streamChunkStep (putCallbackArgs p) with
    | closeAndError m => exact ⟨rfl, rfl⟩
    | ready =>
      cases hready : readyStep fileSize (getNewStart rge) with
      | closeAndError m => exact ⟨rfl, rfl⟩
      | closeAndComplete => exact ⟨rfl, rfl⟩
      | crash => exact ⟨rfl, rfl⟩
      | stream s => exact ih s

lemma uploadRun_counts (st : StatOutcome) (op : OpenOutcome)
    (closeOut : CloseOutcome) (script : List Cycle) :
    (uploadRun st op closeOut script).completes =
      (if (uploadRun st op closeOut script).halt = some Halt.complete then 1 else 0)
    ∧ (uploadRun st op closeOut script).errors =
      (if (uploadRun st op closeOut script).halt = some Halt.error then 1 else 0) := by
  cases st with
  | fail m => exact ⟨rfl, rfl⟩
  | ok size =>
    cases op with
    | fail m => exact ⟨rfl, rfl⟩
    | ok fd => exact runLoop_counts size closeOut script (some 0)

lemma flowCounts_ofCycles (fileSize : Int) (closeOut : CloseOutcome) (script : List Cycle) :
    ∀ start : Option Int,
      flowCounts fileSize (flowOfCycles script) =
        ⟨(runLoop fileSize closeOut start script).completes,
          (runLoop fileSize closeOut start script).errors⟩ := by
  induction script with
  | nil =>
    intro start
    rfl
  | cons cyc rest ih =>
    intro start
    obtain ⟨p, rge⟩ := cyc
    rw [flowOfCycles, flowCounts, runLoop]
    cases hstep : streamChunkStep (putCallbackArgs p) with
    | closeAndError m => rfl
    | ready =>
      cases hready : readyStep fileSize (getNewStart rge) with
      | closeAndError m => rfl
      | closeAndComplete => rfl
      | crash => rfl
      | stream s =>
        simp [flowCounts, addCounts, ih s]

/-- Claim C3 (amended): when every data PUT delivers its callback exactly
once, at most one terminal callback fires and never both — a run halts by
the completion callback exactly when one completion fired and by the error
callback exactly when one error fired, a failing close after a reported
error raising an uncaught TypeError instead of a second report; a run can
also halt by an uncaught TypeError with zero terminal callbacks (a 308
range-check response without a `Range` header, as the fourth conjunct
evaluates). The single-delivery runs are exactly the singleton flows of the
general model. But `_putFile` registers its one callback on the read-stream
error event, the request error event and the response path, so one data PUT
can deliver the callback twice, and then both the completion and the error
callback can fire in a single upload invocation, as the last conjunct
evaluates on the double delivery. -/
theorem terminalCallbackDisciplineAmended (st : StatOutcome) (op : OpenOutcome)
    (closeOut : CloseOutcome) (script : List Cycle) (fileSize : Int) (start : Option Int) :
    ((uploadRun st op closeOut script).completes =
      (if (uploadRun st op closeOut script).halt = some Halt.complete then 1 else 0))
    ∧ ((uploadRun st op closeOut script).errors =
      (if (uploadRun st op closeOut script).halt = some Halt.error then 1 else 0))
    ∧ flowCounts fileSize (flowOfCycles script) =
        { completes := (runLoop fileSize closeOut start script).completes,
          errors := (runLoop fileSize closeOut start script).errors }
    ∧ uploadRun (.ok 10) (.ok 3) .ok [(.response ⟨200, none, ""⟩, .response ⟨308, none, ""⟩)] =
        { completes := 0, errors := 0, crashes := 1, halt := some .crashTypeError }
    ∧ flowCounts 10 doubleDeliveryFlow = { completes := 1, errors := 1 } := by
  refine ⟨(uploadRun_counts st op closeOut script).1,
    (uploadRun_counts st op closeOut script).2,
    flowCounts_ofCycles fileSize closeOut script start, by decide, by decide⟩

/-- Counterexample to C3 as stated: one data PUT whose read stream errors
while its request still receives a 200 response delivers the `_streamChunk`
callback twice; the first delivery completes (its range check confirms the
whole file) and the second reports an error (its range check answers 200) —
both terminal callbacks fire in a single upload invocation, not exactly
one. -/
theorem bothCallbacksFireCounterexample :
    flowCounts 10 doubleDeliveryFlow = { completes := 1, errors := 1 } := by decide

/-- Claim C6 (amended): the session-negotiation request of `upload` (and of
`replace`) always carries `upload.approach = tus` and `upload.size` equal to
the stat-resolved file size, whatever the caller supplied for those two
fields; every other caller-supplied field of `params` and of `params.upload`
passes through unchanged — except that `replace` additionally overwrites
`params.file_name` with the basename of the file. -/
theorem forcedUploadFieldsAmended (sz : Int) (p : Params) (s uri : String) :
    (uploadNegotiationRequest (some sz) p).query.upload.map UploadFields.approach =
      some (some "tus")
    ∧ (uploadNegotiationRequest (some sz) p).query.upload.map UploadFields.size = some (some sz)
    ∧ (uploadNegotiationRequest (some sz) p).query.upload.map UploadFields.extra =
        some ((p.upload.map UploadFields.extra).getD [])
    ∧ (uploadNegotiationRequest (some sz) p).query.extra = p.extra
    ∧ (uploadNegotiationRequest (some sz) p).query.file_name = p.file_name
    ∧ ∃ req, replaceEntry (.path s) (some sz) uri p = .negotiate req
        ∧ req.query.upload.map UploadFields.approach = some (some "tus")
        ∧ req.query.upload.map UploadFields.size = some (some sz)
        ∧ req.query.upload.map UploadFields.extra =
            some ((p.upload.map UploadFields.extra).getD [])
        ∧ req.query.extra = p.extra
        ∧ req.query.file_name = some (jsBasename s) := by
  obtain ⟨pu, pf, pe⟩ := p
  refine ⟨?_, ?_, ?_, ?_, ?_,
    ⟨replaceNegotiationRequest uri (some sz) ⟨pu, some (jsBasename s), pe⟩, rfl,
      ?_, ?_, ?_, ?_, ?_⟩⟩ <;>
    cases pu <;>
    simp [uploadNegotiationRequest, replaceNegotiationRequest, forceUploadFields]

/-- Counterexample to C6 as stated: a caller-supplied `params.file_name` is
not passed through by `replace` — it is overwritten with the basename of the
file path. -/
theorem replaceFileNameOverwriteCounterexample :
    replaceEntry (.path "/a/b.mp4") (some 7) "/videos/1"
        { upload := none, file_name := some "caller.mp4", extra := [] } =
      .negotiate
        { path := "/videos/1/versions?fields=upload", method := "POST",
          query :=
            { upload := some { approach := some "tus", size := some 7, extra := [] },
              file_name := some "b.mp4", extra := [] } }
    ∧ (some "b.mp4" : Option String) ≠ some "caller.mp4" := by decide

/-- Claim C7: when the file path cannot be stat-ed, the callback-style
`upload` invokes the error callback with exactly the message
Unable to locate file to upload. and issues no session-negotiation request;
the promise-enabled `upload` rejects its promise instead. The error is a
return value of the entry, never a synchronous throw. -/
theorem missingFileNoNegotiation (s : String) (p : Params) (neg : NegotiationOutcome)
    (tr : TransferOutcome) :
    uploadEntry (.path s) none p = .errorCb "Unable to locate file to upload."
    ∧ issuesNegotiation (uploadEntry (.path s) none p) = false
    ∧ uploadPromiseRun (.path s) none neg tr = .rejectedStatError :=
  ⟨rfl, rfl, rfl⟩

/-- Claim C8 (amended): the callback-style implementation accepts a string
path or any object — it just reads the size property, performs no
file-argument validation, and a null or undefined file makes the property
read throw a TypeError synchronously; the promise-enabled implementation
accepts only a string path and fails every non-string file, file-like objects
included, with the invalid-file error delivered through the error callback or
promise rejection. -/
theorem fileArgumentHandlingAmended (sz : Option Int) (nm : Option String) (st : Option Int)
    (p : Params) (neg : NegotiationOutcome) (tr : TransferOutcome) :
    uploadEntry (.obj sz nm) st p = .negotiate (uploadNegotiationRequest sz p)
    ∧ uploadEntry .nullish st p = .thrownTypeError
    ∧ uploadPromiseRun (.obj sz nm) st neg tr =
        .rejectedInvalidFile "Please pass in a valid file path."
    ∧ uploadPromiseRun .otherPrim st neg tr =
        .rejectedInvalidFile "Please pass in a valid file path."
    ∧ uploadPromiseRun .nullish st neg tr =
        .rejectedInvalidFile "Please pass in a valid file path." :=
  ⟨rfl, rfl, rfl, rfl, rfl⟩

/-- Counterexample to C8 as stated: a null file makes the callback-style
`upload` throw a TypeError synchronously instead of reporting through the
error channel, and the promise-enabled `upload` rejects a file-like object
exposing a byte length instead of accepting it. -/
theorem fileArgumentValidationCounterexample :
    uploadEntry .nullish (some 5) { upload := none, file_name := none, extra := [] } =
      .thrownTypeError
    ∧ uploadPromiseRun (.obj (some 123) none) (some 123) (.ok "uri" "link") .success =
        .rejectedInvalidFile "Please pass in a valid file path." :=
  ⟨rfl, rfl⟩

/-- Claim C9: when, after argument shifting, the final two callback-shaped
arguments are both absent, `upload` returns the promise built from the
promise branch — never the callback channel — and that promise resolves with
the uri of the negotiated attempt on a successful transfer and rejects with
the transfer error on failure; `replace` resolves with the video URI written
into the attempt. -/
theorem promiseWhenCallbacksAbsent (file : FileArg) (st : Option Int)
    (neg : NegotiationOutcome) (tr : TransferOutcome) (s uri vuri link tm : String) (sz : Int) :
    uploadDispatch false false file st neg tr = .promise (uploadPromiseRun file st neg tr)
    ∧ uploadDispatch false false (.path s) (some sz) (.ok uri link) .success =
        .promise (.resolved uri)
    ∧ uploadDispatch false false (.path s) (some sz) (.ok uri link) (.failure tm) =
        .promise (.rejectedTransfer tm)
    ∧ replacePromiseRun (.path s) vuri (some sz) (.ok uri link) .success = .resolved vuri
    ∧ replacePromiseRun (.path s) vuri (some sz) (.ok uri link) (.failure tm) =
        .rejectedTransfer tm :=
  ⟨rfl, rfl, rfl, rfl, rfl⟩

/-- Claim C10: `upload` and `replace` mutate the caller-supplied `params`
object in place: after the preparation step the object the caller still
references carries `upload.approach = tus`, `upload.size` equal to the
resolved size and, for `replace`, `file_name` equal to the basename of the
file; the updated cell is the forced version of the original object — no copy
is made — and every other reference is untouched. -/
theorem paramsMutatedInPlace (h : Heap) (r : Nat) (sz : Int) (s : String) :
    uploadPrepHeap (some sz) h r r = forceUploadFields (some sz) (h r)
    ∧ ((uploadPrepHeap (some sz) h r) r).upload.map UploadFields.approach = some (some "tus")
    ∧ ((uploadPrepHeap (some sz) h r) r).upload.map UploadFields.size = some (some sz)
    ∧ ((replacePrepHeap (some (jsBasename s)) (some sz) h r) r).file_name =
        some (jsBasename s)
    ∧ ((replacePrepHeap (some (jsBasename s)) (some sz) h r) r).upload.map
        UploadFields.approach = some (some "tus")
    ∧ (∀ r2 : Nat, r2 = r ∨ uploadPrepHeap (some sz) h r r2 = h r2) := by
  have happroach : ∀ q : Params,
      (forceUploadFields (some sz) q).upload.map UploadFields.approach = some (some "tus") := by
    intro q
    rcases hq : q.upload with _ | u <;> simp [forceUploadFields, hq]
  have hsize : ∀ q : Params,
      (forceUploadFields (some sz) q).upload.map UploadFields.size = some (some sz) := by
    intro q
    rcases hq : q.upload with _ | u <;> simp [forceUploadFields, hq]
  have hfile : ∀ q : Params, (forceUploadFields (some sz) q).file_name = q.file_name := by
    intro q
    rcases hq : q.upload with _ | u <;> simp [forceUploadFields, hq]
  have hcell : uploadPrepHeap (some sz) h r r = forceUploadFields (some sz) (h r) := by
    simp [uploadPrepHeap, writeHeap]
  have hrep : replacePrepHeap (some (jsBasename s)) (some sz) h r r =
      forceUploadFields (some sz) { h r with file_name := some (jsBasename s) } := by
    simp [replacePrepHeap, writeHeap]
  refine ⟨hcell, ?_, ?_, ?_, ?_, ?_⟩
  · rw [hcell]
    exact happroach (h r)
  · rw [hcell]
    exact hsize (h r)
  · rw [hrep, hfile]
  · rw [hrep]
    exact happroach _
  · intro r2
    rcases eq_or_ne r2 r with he | hne
    · exact Or.inl he
    · exact Or.inr (by simp [uploadPrepHeap, writeHeap, hne])

end VimeoJS
